import Mathlib

/-!
Verification development for the RFP bucket-filtering / match-classification core
(`utils/bucket_filters.py` and `services/rfp_processor.py`).

Conventions of the shallow embedding:
* Python `float` values are modelled as exact rationals (`ℚ`); the scores here are
  sums of small integer fractions, where binary floating point and exact rational
  arithmetic agree on everything the statements below assert.
* Python dict lookups with `.get(key, default)` are modelled with `Option` fields
  plus `Option.getD`.
* `re.findall` over the fixed pattern table is modelled by a small backtracking
  matcher (leftmost scan, ordered alternation, greedy quantifiers, word
  boundaries), which is exactly the fragment of Python regexes those patterns use.
  Inputs are assumed ASCII (the pattern table is ASCII and `upper()` is applied
  first), so case handling is modelled by uppercasing.
-/

namespace RFP

/-- A Python value as it can appear in the score / quantity fields of the
dictionaries handled by `rfp_processor.py`: `None`, a string, or a number. -/
inductive PyVal
  | vNone
  | vStr (s : String)
  | vNum (q : ℚ)
  deriving DecidableEq

/-- Python truthiness of a `PyVal` (`if qty_str:`): `None`, `""` and `0` are falsy. -/
def pyTruthy : PyVal → Bool
  | .vNone => false
  | .vStr s => !s.isEmpty
  | .vNum q => q != 0

/-- Numeric value of a digit run, most significant first. -/
def digitsVal (ds : List Char) : Nat :=
  ds.foldl (fun a c => a * 10 + (c.toNat - '0'.toNat)) 0

/-- Parse an unsigned decimal literal (`123`, `123.`, `123.45`, `.45`),
the fragment of Python `float()` string syntax exercised by this program. -/
def parseUnsigned (cs : List Char) : Option ℚ :=
  let intPart := cs.takeWhile Char.isDigit
  let rest := cs.dropWhile Char.isDigit
  match rest with
  | [] => if intPart.isEmpty then none else some ((digitsVal intPart : ℚ))
  | '.' :: rest2 =>
      let frac := rest2.takeWhile Char.isDigit
      let rest3 := rest2.dropWhile Char.isDigit
      if rest3.isEmpty && !(intPart.isEmpty && frac.isEmpty) then
        some ((digitsVal intPart : ℚ) + (digitsVal frac : ℚ) / (10 ^ frac.length : ℚ))
      else none
  | _ => none

/-- Python `float(s)` on a string: strip whitespace, optional sign, decimal
literal; anything else raises `ValueError` (modelled as `none`).
(The exponent / `inf` / `nan` / underscore forms of CPython are not used by
the program's data and are not modelled.) -/
def parseFloatStr (s : String) : Option ℚ :=
  let cs := (s.toList.dropWhile Char.isWhitespace).reverse.dropWhile Char.isWhitespace |>.reverse
  match cs with
  | '+' :: r => parseUnsigned r
  | '-' :: r => (parseUnsigned r).map Neg.neg
  | r => parseUnsigned r

/-- Python `float(v)`: numbers coerce to themselves, strings are parsed,
`None` raises `TypeError` (modelled as `none`). -/
def pyFloat : PyVal → Option ℚ
  | .vNone => none
  | .vNum q => some q
  | .vStr s => parseFloatStr s

/-! ## The regex fragment used by `bucket_filters.py`

Every pattern in the table is of the shape `pre (alt₁|…|altₙ)? post` where the
pieces are sequences of: literal characters, `\d`, single `\s`, `\s*`, `\d*`,
optional single characters (`#?`, `\.?`), and `\b` word boundaries, and the
parenthesised alternation (when present) is the pattern's only capture group.
`re.findall` therefore returns, per match, either the group's text or the whole
match. -/

/-- Single-character class: a literal character, `\d`, or `\s`. -/
inductive CharClass
  | lit (c : Char)
  | digit
  | space
  deriving DecidableEq

/-- One atom of a pattern: a single character of a class, a greedy star of a
class, an optional character of a class, or a word boundary `\b`. -/
inductive Atom
  | cls (c : CharClass)
  | star (c : CharClass)
  | opt (c : CharClass)
  | wb
  deriving DecidableEq

def matchCC : CharClass → Char → Bool
  | .lit c, x => x == c
  | .digit, x => x.isDigit
  | .space, x => x.isWhitespace

/-- Python `\w` for the ASCII texts handled here. -/
def isWordChar (c : Char) : Bool := c.isAlphanum || c == '_'

/-- `\b` holds between the previous character (none at the start) and the rest
of the input iff exactly one side is a word character. -/
def isBoundary (prev : Option Char) (s : List Char) : Bool :=
  let a := match prev with | some c => isWordChar c | none => false
  let b := match s with | c :: _ => isWordChar c | [] => false
  a != b

/-- Greedy match of `c*`: consume as many `c`-characters as possible, then
backtrack one at a time into the continuation `k`. -/
def starMatch {α : Type} (c : CharClass) : Option Char → List Char →
    (Option Char → List Char → Option α) → Option α
  | p, [], k => k p []
  | p, x :: xs, k =>
      if matchCC c x then (starMatch c (some x) xs k) <|> k p (x :: xs)
      else k p (x :: xs)

/-- Backtracking matcher for a sequence of atoms, in continuation-passing
style; `prev` is the character just before the current position (for `\b`).
Alternatives and quantifiers are tried in Python's order: greedy, leftmost
alternative first. -/
def matchSeq {α : Type} : List Atom → Option Char → List Char →
    (Option Char → List Char → Option α) → Option α
  | [], p, s, k => k p s
  | .cls c :: rest, _, s, k =>
      match s with
      | [] => none
      | x :: xs => if matchCC c x then matchSeq rest (some x) xs k else none
  | .star c :: rest, p, s, k =>
      starMatch c p s (fun p2 s2 => matchSeq rest p2 s2 k)
  | .opt c :: rest, p, s, k =>
      (match s with
       | [] => none
       | x :: xs => if matchCC c x then matchSeq rest (some x) xs k else none)
      <|> matchSeq rest p s k
  | .wb :: rest, p, s, k =>
      if isBoundary p s then matchSeq rest p s k else none

/-- Ordered alternation: try each alternative sequence in turn, each with the
full continuation (so a later alternative is tried when the rest of the
pattern fails, as in Python). -/
def matchAlts {α : Type} : List (List Atom) → Option Char → List Char →
    (Option Char → List Char → Option α) → Option α
  | [], _, _, _ => none
  | a :: rest, p, s, k => (matchSeq a p s k) <|> matchAlts rest p s k

/-- A pattern of the table: `pre (grp-alternation)? post`, the alternation
being the single capture group when present. -/
structure Pat where
  pre : List Atom
  grp : Option (List (List Atom))
  post : List Atom

/-- Try to match pattern `p` at the start of `s` (`prev` = character before).
Returns the text `re.findall` reports for this match (the group's text if the
pattern has a group, the whole match otherwise) and the remaining input. -/
def patMatchAt (p : Pat) (prev : Option Char) (s : List Char) :
    Option (List Char × List Char) :=
  matchSeq p.pre prev s (fun p1 s1 =>
    match p.grp with
    | none =>
        matchSeq p.post p1 s1 (fun _ s2 =>
          some (s.take (s.length - s2.length), s2))
    | some alts =>
        matchAlts alts p1 s1 (fun p2 s2 =>
          matchSeq p.post p2 s2 (fun _ s3 =>
            some (s1.take (s1.length - s2.length), s3))))

/-- `re.findall`-style scan: try the pattern at each position from the left;
on a match, emit its reported text and continue after it (non-overlapping);
otherwise advance one character. `fuel` bounds the recursion (callers pass
`length + 1`, which is always enough since every step consumes input). -/
def findAllF (p : Pat) : Nat → Option Char → List Char → List (List Char)
  | 0, _, _ => []
  | _ + 1, prev, [] =>
      match patMatchAt p prev [] with
      | some (tok, _) => [tok]
      | none => []
  | fuel + 1, prev, x :: xs =>
      match patMatchAt p prev (x :: xs) with
      | some (tok, rest) =>
          let n := (x :: xs).length - rest.length
          if 0 < n then
            tok :: findAllF p fuel (((x :: xs).take n).getLast?) rest
          else
            tok :: findAllF p fuel (some x) xs
      | none => findAllF p fuel (some x) xs

/-- All texts reported by `re.findall(pattern, s)` on the uppercased input. -/
def findAll (p : Pat) (s : List Char) : List String :=
  (findAllF p (s.length + 1) none s).map (fun cs => ⟨cs⟩)

/-! ## The 11-bucket pattern table (`BucketFilters.bucket_definitions`) -/

/-- A run of literal characters. -/
def lts (s : String) : List Atom := s.toList.map (fun c => Atom.cls (CharClass.lit c))

/-- `\s*`. -/
def wsp : Atom := Atom.star CharClass.space

/-- An alternative containing one `\s*` between two literal runs. -/
def lts2 (a b : String) : List Atom := lts a ++ [wsp] ++ lts b

/-- The class-rating numbers shared by bucket 1's three patterns. -/
def classNums : List (List Atom) :=
  ["150", "300", "600", "900", "1500", "2500", "5000", "3000", "6000", "9000"].map lts

/-- The size tokens shared by buckets 9 and 10 (`1\.1/4` etc. are literal). -/
def sizeToks : List (List Atom) :=
  ["1/8", "1/4", "1/2", "3/4", "1", "1.1/4", "1.1/2", "2", "2.1/2", "3", "3.1/2",
   "4", "5", "6", "7", "8", "10", "12", "14", "16", "18", "20", "22", "24", "26",
   "28", "30", "32", "34", "36", "38", "40", "42", "44"].map lts

/-- `\d+` as atoms. -/
def digitsPlus : List Atom := [Atom.cls CharClass.digit, Atom.star CharClass.digit]

/-- `\d+\.?\d*` as atoms. -/
def decimalNum : List Atom :=
  digitsPlus ++ [Atom.opt (CharClass.lit '.'), Atom.star CharClass.digit]

/-- Patterns of bucket `b` (1–11), transcribed from `bucket_definitions`. -/
def bucketPatterns (b : Nat) : List Pat :=
  if b = 1 then
    [⟨[Atom.wb], some classNums, [Atom.opt (CharClass.lit '#'), Atom.wb]⟩,
     ⟨[Atom.wb], some classNums, [wsp] ++ lts "LB" ++ [Atom.wb]⟩,
     ⟨[Atom.wb] ++ lts "CLASS" ++ [wsp], some classNums, [Atom.wb]⟩]
  else if b = 2 then
    [⟨[Atom.wb], some (["PIPE", "ELBOW", "CAP", "FLANGE", "FLG", "TEE", "REDUCER",
        "REDG", "RED", "BEND", "SWAGE", "COUPLING", "CLPG", "BOSS", "UNION",
        "NIPPLE", "PLUG", "CROSS", "INSERT", "PIPET", "WELDOLET", "SOCKOLET",
        "ELBOLET", "THREADOLET"].map lts), [Atom.wb]⟩]
  else if b = 3 then
    [⟨[Atom.wb], some
       [lts "RF", lts2 "RAISED" "FACE", lts "FF", lts2 "FLAT" "FACE", lts "WN",
        lts "WNRF", lts2 "WN" "RF", lts "WNFF", lts2 "WN" "FF", lts "WELDNECK",
        lts2 "WELD" "NECK", lts "BLIND", lts "BL", lts "BLRF", lts2 "BL" "RF",
        lts "BLFF", lts2 "BF" "FF", lts "SO", lts "SORF", lts2 "SO" "RF",
        lts "SOFF", lts2 "SO" "FF", lts2 "SLIP" "ON", lts "SLIPON", lts "SLIP-ON",
        lts "LJ", lts "LJRF", lts2 "LJ" "RF", lts "LJFF", lts2 "LJ" "FF",
        lts2 "LAP" "JOINT", lts "LAPJOINT", lts "LAP-JOINT"], [Atom.wb]⟩]
  else if b = 4 then
    [⟨[Atom.wb], some
       [lts "NPT", lts "THREADED", lts "TH", lts "SCRD", lts "SCREWED", lts "SW",
        lts2 "SOCKET" "WELD", lts "SOCKETWELD", lts "BW", lts "BUTTWELD",
        lts "SMLS", lts "SEAMLESS", lts "WELDED", lts "WE"], [Atom.wb]⟩]
  else if b = 5 then
    [⟨[Atom.wb], some
       [lts "LR", lts2 "LONG" "RADIUS", lts "SR", lts2 "SHORT" "RADIUS",
        lts "90LR", lts "90SR", lts "90", lts "90DEG", lts "90D",
        lts2 "90" "DEG", lts2 "90" "DEGREE", lts "45LR", lts "45SR", lts "45",
        lts "45DEG", lts "45D", lts2 "45" "DEG", lts2 "45" "DEGREE",
        lts "180LR", lts "180SR", lts "180", lts "180DEG", lts "180D",
        lts2 "180" "DEG", lts2 "180" "DEGREE"], [Atom.wb]⟩]
  else if b = 6 then
    [⟨[Atom.wb], some
       [lts "EQ", lts "EQUAL", lts "ECC", lts "ECCENTRIC", lts "CON", lts "CONC",
        lts "CONCENTRIC", lts "RED", lts "REDUCING", lts "REDG", lts "FULL",
        lts "HALF", lts "HEX", lts "BULL", lts "ROUND"], [Atom.wb]⟩]
  else if b = 7 then
    [⟨[Atom.wb], some
       [lts "CS", lts2 "CARBON" "STEEL", lts "CARBONSTEEL", lts "SS",
        lts2 "STAINLESS" "STEEL", lts "STAINLESSSTEEL", lts "X52", lts "X42",
        lts "A53", lts "SA/A106-B", lts "A106-B", lts "A106B", lts "A106GRB",
        lts2 "A106" "GRB", lts2 "SA/A333" "GR.6", lts "A333GR6",
        lts2 "A333" "GR6", lts "304", lts "SS304", lts "SS304/L", lts "SS304L",
        lts "316", lts "SS316", lts "SS316/L", lts "SS316L", lts "TP304/L",
        lts "TP304", lts "TP304L", lts "TP316", lts "TP316/L", lts "TP316L",
        lts2 "SA/A234" "WPB", lts "234WPB", lts "A234WPB", lts "A234", lts "234",
        lts "SA/A105N", lts "A105", lts "A105N", lts "105", lts "F304/304L",
        lts "304/304L", lts "F304/L", lts "F304L", lts "304L", lts "F316/316L",
        lts "316/316L", lts "F316/L", lts "F316L", lts "316L", lts "304/L",
        lts "316/L", lts "WP304/L", lts "WP304/304L", lts "F304/L", lts "F304L",
        lts "WP316/L", lts "WP316/316L", lts "F316/L", lts "F316L"], [Atom.wb]⟩]
  else if b = 8 then
    [⟨[Atom.wb], some
       [lts "S10", lts "S20", lts "S30", lts "S40", lts "S60", lts "S80",
        lts "S100", lts "S120", lts "S140", lts "S160", lts "SSTD", lts "SXS",
        lts "SXXS", lts2 "SCH" "10", lts2 "SCH" "20", lts2 "SCH" "30",
        lts2 "SCH" "40", lts2 "SCH" "60", lts2 "SCH" "80", lts2 "SCH" "100",
        lts2 "SCH" "120", lts2 "SCH" "140", lts2 "SCH" "160", lts2 "SCH" "STD",
        lts2 "SCH" "XS", lts2 "SCH" "XXS", lts "SCH10", lts "SCH20", lts "SCH30",
        lts "SCH40", lts "SCH60", lts "SCH80", lts "SCH100", lts "SCH120",
        lts "SCH140", lts "SCH160", lts "SCHSTD", lts "SCHXS", lts "SCHXXS",
        lts "STD", lts "XS", lts "XXS"], [Atom.wb]⟩,
     ⟨[Atom.wb] ++ decimalNum ++ [wsp] ++ lts "MM" ++ [Atom.wb], none, []⟩,
     ⟨[Atom.wb] ++ decimalNum ++ [wsp] ++ lts "INCH" ++ [Atom.wb], none, []⟩]
  else if b = 9 then
    [⟨[Atom.wb], some sizeToks, [Atom.cls (CharClass.lit '\"'), Atom.wb]⟩,
     ⟨[Atom.wb] ++ lts "DN" ++ [wsp], some [digitsPlus], [Atom.wb]⟩,
     ⟨[Atom.wb] ++ lts "NB" ++ [wsp], some [decimalNum], [Atom.wb]⟩]
  else if b = 10 then
    [⟨lts "X" ++ [wsp], some sizeToks, [Atom.cls (CharClass.lit '\"'), Atom.wb]⟩,
     ⟨lts "TO" ++ [wsp], some sizeToks, [Atom.cls (CharClass.lit '\"'), Atom.wb]⟩]
  else if b = 11 then
    [⟨[Atom.wb], some
       [lts "API", lts "PSL1", lts "PSL2", lts "PSL3", lts2 "TYPE" "A",
        lts2 "TYPE" "B", lts2 "TYPE" "C"], [Atom.wb]⟩]
  else []

/-- A feature map: bucket id → list of matched tokens, `none` when the bucket
matched nothing (the key is then absent from the Python dict). -/
def FeatureMap : Type := Nat → Option (List String)

/-- `BucketFilters.extract_bucket_features`: uppercase the text, run every
pattern of every bucket, deduplicate (`list(set(matches))`), and omit buckets
with no matches. -/
def extract_bucket_features (text : String) : FeatureMap :=
  fun b =>
    let up := text.toList.map Char.toUpper
    let ms := (bucketPatterns b).foldl (fun acc p => acc ++ findAll p up) []
    if ms.isEmpty then none else some ms.dedup

/-! ## Candidate scoring and filtering (`BucketFilters`) -/

/-- Bucket priority tier, from the `priority` entries of `bucket_definitions`
(only ever queried for buckets 1–11). -/
inductive Priority
  | high
  | medium
  | low
  deriving DecidableEq

def bucketPriority (b : Nat) : Priority :=
  match b with
  | 1 | 2 | 3 | 4 | 5 | 6 => .high
  | 7 | 8 => .medium
  | _ => .low

/-- The `name` entries of `bucket_definitions`. -/
def bucketName (b : Nat) : String :=
  match b with
  | 1 => "Class Rating"
  | 2 => "Item Group"
  | 3 => "Flange Type/Facing"
  | 4 => "Item Ends/Finish"
  | 5 => "Elbow Type"
  | 6 => "Item Type"
  | 7 => "Material"
  | 8 => "Thickness"
  | 9 => "Size 1"
  | 10 => "Size 2"
  | 11 => "Misc"
  | _ => ""

/-- The `bucket_weights` table of `_calculate_match_score`. -/
def bucketWeight (b : Nat) : ℚ :=
  match bucketPriority b with
  | .high => 10
  | .medium => 5
  | .low => 2

/-- One stock-master entry, with the fields the matching core reads.
`on_hand_quantity` is `none` when the key is absent from the dict. -/
structure StockItem where
  product_code : String
  description : String
  material : String
  size : String
  specification : String
  on_hand_quantity : Option PyVal
  deriving DecidableEq

/-- The `' '.join([...])` of the five text-bearing fields in
`filter_stock_by_buckets`. -/
def stockText (it : StockItem) : String :=
  String.intercalate " "
    [it.product_code, it.description, it.material, it.size, it.specification]

/-- The amount one bucket contributes inside `_calculate_match_score`'s loop:
when the bucket is present in both feature maps and the deduplicated token
sets intersect, `weight * (overlap / max(len(rfp_set), len(stock_set)))`,
else nothing. -/
def bucketScore (rfp stock : FeatureMap) (b : Nat) : ℚ :=
  match rfp b, stock b with
  | some rl, some sl =>
      let rset := rl.dedup
      let sset := sl.dedup
      let overlap := (rset.filter (fun t => decide (t ∈ sset))).length
      if 0 < overlap then
        bucketWeight b * ((overlap : ℚ) / (max rset.length sset.length : ℚ))
      else 0
  | _, _ => 0

/-- `BucketFilters._calculate_match_score`: fold the bucket contributions over
`range(1, 12)` starting from `0.0`. -/
def calculate_match_score (rfp stock : FeatureMap) : ℚ :=
  (List.range' 1 11).foldl (fun acc b => acc + bucketScore rfp stock b) 0

/-- One entry of `_get_matched_buckets`'s explanation list. -/
structure MatchedBucket where
  bucket_number : Nat
  bucket_name : String
  priority : Priority
  matched_features : List String
  rfp_features : List String
  stock_features : List String
  deriving DecidableEq

/-- `BucketFilters._get_matched_buckets`. -/
def get_matched_buckets (rfp stock : FeatureMap) : List MatchedBucket :=
  (List.range' 1 11).filterMap (fun b =>
    match rfp b, stock b with
    | some rl, some sl =>
        let rset := rl.dedup
        let sset := sl.dedup
        let ov := rset.filter (fun t => decide (t ∈ sset))
        if ov.isEmpty then none
        else some ⟨b, bucketName b, bucketPriority b, ov, rset, sset⟩
    | _, _ => none)

/-- A stock entry augmented with its bucket match score and explanation
(the `{**stock_item, 'match_score': …, 'matched_buckets': …}` dict). -/
structure ScoredItem where
  item : StockItem
  match_score : ℚ
  matched_buckets : List MatchedBucket
  deriving DecidableEq

/-- `BucketFilters.filter_stock_by_buckets`: score every entry against the
query features, keep only strictly positive scores, stable-sort by score
descending, truncate to `max_results`. Python's `list.sort(key=…,
reverse=True)` is a stable sort, and a stable sort's output is uniquely
determined by comparator and input order, so the stable `insertionSort` below
computes exactly the same list. -/
def filter_stock_by_buckets (rfp : FeatureMap) (stock : List StockItem)
    (maxResults : Nat) : List ScoredItem :=
  let scored := stock.filterMap (fun it =>
    let sf := extract_bucket_features (stockText it)
    let score := calculate_match_score rfp sf
    if 0 < score then some ⟨it, score, get_matched_buckets rfp sf⟩ else none)
  (List.insertionSort (fun a b => b.match_score ≤ a.match_score) scored).take maxResults

/-! ## Match classification (`RFPProcessor`) -/

/-- The four result statuses. -/
inductive Status
  | matched
  | unmatched
  | unavailable
  | error
  deriving DecidableEq

/-- Confidence tiers of `_get_confidence_level`. -/
inductive Confidence
  | high
  | medium
  | low
  | veryLow
  deriving DecidableEq

/-- One entry of the `alternative_matches` list. -/
structure AltMatch where
  product_code : String
  description : String
  bucket_score : ℚ
  deriving DecidableEq

/-- The judgment dict returned by the external semantic matcher, as read by
`_enhance_ai_result` (`none` = key absent from the dict). -/
structure AIResult where
  match_score : Option PyVal
  matched_product_code : Option String
  matched_description : Option String
  match_reason : Option String

/-- The per-item result dict. Fields that only some of the produced dicts
carry are `Option`-valued (`none` = key absent). -/
structure MatchResult where
  line_number : Option Nat := none
  original_rfp_item : Option String := none
  status : Status
  error_message : Option String := none
  matched_product_code : String
  matched_description : String
  match_score : ℚ
  on_hand_quantity : Option ℚ := none
  match_reason : String
  bucket_features : Option FeatureMap := none
  filtered_candidates : Option Nat := none
  confidence_level : Option Confidence := none
  matched_stock_details : Option (Option ScoredItem) := none
  alternative_matches : Option (List AltMatch) := none

/-- `RFPProcessor._determine_match_status` (`low_confidence_threshold = 40`):
score below 40 or no located entry → unmatched; then
`qty = float(qty_str) if qty_str else 0`, `qty <= 0` → unavailable, a
coercion failure is passed over (treated available) → matched. -/
def determine_match_status (match_score : ℚ) (stock_item : Option ScoredItem) :
    Status :=
  if match_score < 40 then .unmatched
  else
    match stock_item with
    | none => .unmatched
    | some it =>
        let q := it.item.on_hand_quantity.getD (.vStr "0")
        if pyTruthy q then
          match pyFloat q with
          | some v => if v ≤ 0 then .unavailable else .matched
          | none => .matched
        else .unavailable

/-- `RFPProcessor._get_confidence_level` (thresholds 80 / 60 / 40). -/
def get_confidence_level (match_score : ℚ) : Confidence :=
  if 80 ≤ match_score then .high
  else if 60 ≤ match_score then .medium
  else if 40 ≤ match_score then .low
  else .veryLow

/-- `RFPProcessor._enhance_ai_result`. A failing `float()` coercion of the
judgment's score raises inside the `try` block and is converted by the
`except` handler into the `status = error` dict (whose `match_reason` text is
abstracted here). Otherwise: locate the judged code among the candidates
(exact, case-sensitive; skipped when the code is falsy), derive the status and
quantity, and list up to three alternatives from the first three candidates. -/
def enhance_ai_result (ai : AIResult) (filtered : List ScoredItem)
    (rfp_features : FeatureMap) : MatchResult :=
  match pyFloat (ai.match_score.getD (.vNum 0)) with
  | none =>
      { status := .error
        matched_product_code := ""
        matched_description := ""
        match_score := 0
        on_hand_quantity := some 0
        match_reason := "Error processing AI result"
        bucket_features := some rfp_features
        filtered_candidates := some filtered.length }
  | some match_score =>
      let product_code := ai.matched_product_code.getD ""
      let matched_stock_item : Option ScoredItem :=
        if product_code = "" then none
        else filtered.find? (fun it => it.item.product_code = product_code)
      let on_hand : ℚ :=
        match matched_stock_item with
        | none => 0
        | some it =>
            let q := it.item.on_hand_quantity.getD (.vStr "0")
            if pyTruthy q then (pyFloat q).getD 0 else 0
      { status := determine_match_status match_score matched_stock_item
        matched_product_code := product_code
        matched_description := ai.matched_description.getD ""
        match_score := match_score
        on_hand_quantity := some on_hand
        match_reason := ai.match_reason.getD ""
        bucket_features := some rfp_features
        filtered_candidates := some filtered.length
        confidence_level := some (get_confidence_level match_score)
        matched_stock_details := some matched_stock_item
        alternative_matches := some
          (((filtered.take 3).filter
              (fun it => it.item.product_code ≠ product_code)).map
            (fun it => ⟨it.item.product_code, it.item.description, it.match_score⟩)) }

/-- The error dict appended by `process_rfp_items` when an item's processing
raises (it has no quantity / feature keys). -/
def errorItemResult (n : Nat) (item : String) (msg : String) : MatchResult :=
  { line_number := some n
    original_rfp_item := some item
    status := .error
    error_message := some msg
    matched_product_code := ""
    matched_description := ""
    match_score := 0
    match_reason := "Processing error: " ++ msg }

/-- `RFPProcessor.process_rfp_items`: run the per-item pipeline (modelled as an
arbitrary fallible `proc`, since any step of it may raise) on each item in
order, attach 1-based line numbers and the original text, and convert a raised
exception into an error result instead of aborting. -/
def process_rfp_items (proc : String → Except String MatchResult)
    (items : List String) : List MatchResult :=
  items.enum.map (fun pr =>
    match proc pr.2 with
    | .ok r => { r with line_number := some (pr.1 + 1), original_rfp_item := some pr.2 }
    | .error e => errorItemResult (pr.1 + 1) pr.2 e)

/-! ## Batch summary (`RFPProcessor._generate_bom_summary`) -/

/-- `len([item for item in bom_data if item.get('status') == st])`. -/
def statusCount (st : Status) (bom : List MatchResult) : Nat :=
  (bom.filter (fun r => decide (r.status = st))).length

/-- `len([item for item in bom_data if item.get('confidence_level') == c])`
(a dict without the key compares unequal). -/
def confCount (c : Confidence) (bom : List MatchResult) : Nat :=
  (bom.filter (fun r => decide (r.confidence_level = some c))).length

/-- One-decimal percentage rendering `f-string {…:.1f}%`. The decimal rounding
is modelled as round-half-up on the exact rational; CPython formats the nearest
binary double with round-half-even, and the two agree except at exact
half-tie values. -/
def pctString (q : ℚ) : String :=
  let t := (round (q * 10)).toNat
  toString (t / 10) ++ "." ++ toString (t % 10) ++ "%"

/-- One row of the summary sheet. -/
structure SummaryRow where
  metric : String
  count : Nat
  percentage : String
  deriving DecidableEq

/-- `RFPProcessor._generate_bom_summary`: the eight rows, each percentage
computed against the total and formatted to one decimal, or the literal
`"0.0%"` when the total is zero. -/
def generate_bom_summary (bom : List MatchResult) : List SummaryRow :=
  let total := bom.length
  let pct := fun (n : Nat) =>
    if 0 < total then pctString ((n : ℚ) / (total : ℚ) * 100) else "0.0%"
  [⟨"Total Items", total, "100.0%"⟩,
   ⟨"Matched Items", statusCount .matched bom, pct (statusCount .matched bom)⟩,
   ⟨"Unmatched Items", statusCount .unmatched bom, pct (statusCount .unmatched bom)⟩,
   ⟨"Unavailable Items", statusCount .unavailable bom, pct (statusCount .unavailable bom)⟩,
   ⟨"Processing Errors", statusCount .error bom, pct (statusCount .error bom)⟩,
   ⟨"High Confidence Matches", confCount .high bom, pct (confCount .high bom)⟩,
   ⟨"Medium Confidence Matches", confCount .medium bom, pct (confCount .medium bom)⟩,
   ⟨"Low Confidence Matches", confCount .low bom, pct (confCount .low bom)⟩]

/-! ## Spec-side formulation of the candidate score (for the refinement claim) -/

/-- Transcription of the specified score contribution of one bucket: for a
bucket id present in both feature maps whose token sets intersect,
`weight(priority) × (|intersection| / max(|query_set|, |entry_set|))` with
weight 10.0 for the high-priority buckets 1–6, 5.0 for the medium buckets
7–8 and 2.0 for the low buckets 9–11; otherwise nothing. -/
def specCandidateScoreTerm (rfp ef : FeatureMap) (b : Nat) : ℚ :=
  match rfp b, ef b with
  | some rl, some sl =>
      if (rl.toFinset ∩ sl.toFinset).Nonempty then
        (if b ≤ 6 then (10 : ℚ) else if b ≤ 8 then 5 else 2) *
          (((rl.toFinset ∩ sl.toFinset).card : ℚ) /
            (max rl.toFinset.card sl.toFinset.card : ℚ))
      else 0
  | _, _ => 0

/-- Spec-side "the entry has some bucket overlap with the query at bucket b". -/
def bucketsOverlap (f g : FeatureMap) (b : Nat) : Prop :=
  ∃ rl sl, f b = some rl ∧ g b = some sl ∧ ∃ t, t ∈ rl ∧ t ∈ sl

/-! ## Concrete fixtures for witnesses and counterexamples -/

/-- Query feature map of the text `"PIPE"` (bucket 2 only). -/
def qmPipe : FeatureMap := extract_bucket_features "PIPE"

/-- A stock entry whose combined text matches bucket 2 only. -/
def itPipe : StockItem := ⟨"P1", "PIPE", "", "", "", some (.vStr "5")⟩

def mbPipe : MatchedBucket := ⟨2, "Item Group", .high, ["PIPE"], ["PIPE"], ["PIPE"]⟩

def siPipe : ScoredItem := ⟨itPipe, 10, [mbPipe]⟩

/-- A stock entry with empty text fields: its feature map is empty. -/
def eBlank : StockItem := ⟨"", "", "", "", "", none⟩

/-- The empty feature map, for classifier fixtures. -/
def fmEmpty : FeatureMap := fun _ => none

def aiX1 : AIResult := ⟨some (.vStr "85"), some "X1", some "d", some "r"⟩

def fsY : List ScoredItem := [⟨⟨"Y1", "PIPE", "", "", "", some (.vStr "5")⟩, 10, []⟩]

def siQEmpty : ScoredItem := ⟨⟨"Q1", "", "", "", "", some (.vStr "")⟩, 10, []⟩

def siQ5 : ScoredItem := ⟨⟨"Q2", "", "", "", "", some (.vStr "5")⟩, 10, []⟩

def aiBad : AIResult := ⟨some (.vStr "abc"), some "X1", none, none⟩

def aiZero : AIResult := ⟨some (.vNum 0), some "X1", none, none⟩

def aiNoScore : AIResult := ⟨none, some "X1", none, none⟩

def aiA : AIResult := ⟨some (.vStr "85"), some "A", none, none⟩

def fs5 : List ScoredItem :=
  [⟨⟨"A", "", "", "", "", none⟩, 5, []⟩,
   ⟨⟨"B", "", "", "", "", none⟩, 4, []⟩,
   ⟨⟨"C", "", "", "", "", none⟩, 3, []⟩,
   ⟨⟨"D", "", "", "", "", none⟩, 2, []⟩,
   ⟨⟨"E", "", "", "", "", none⟩, 1, []⟩]

/-- The query text of the worked extraction example. -/
def qC8 : String := "6\" SCH40 SMLS PIPE API 5L X52 PSL2"

/-- A minimal `matched` result for summary fixtures. -/
def mrMatched : MatchResult :=
  { status := .matched
    matched_product_code := "P"
    matched_description := ""
    match_score := 85
    match_reason := "" }

def bomW : List MatchResult := [mrMatched, errorItemResult 1 "x" "boom"]

/-! ## Helper lemmas -/

theorem foldl_add_map_sum (l : List ℕ) (f : ℕ → ℚ) (a : ℚ) :
    l.foldl (fun acc b => acc + f b) a = a + (l.map f).sum := by
  induction l generalizing a with
  | nil => simp
  | cons x xs ih => simp [List.foldl_cons, ih, add_assoc]

theorem sum_Icc_one_eleven (f : ℕ → ℚ) :
    ∑ b ∈ Finset.Icc 1 11, f b =
      f 1 + f 2 + f 3 + f 4 + f 5 + f 6 + f 7 + f 8 + f 9 + f 10 + f 11 := by
  have h0 : (0 : ℕ) ∉ Finset.Icc 1 11 := by decide
  have h : Finset.range 12 = insert 0 (Finset.Icc 1 11) := by decide
  have h3 : ∑ b ∈ Finset.range 12, f b = f 0 + ∑ b ∈ Finset.Icc 1 11, f b := by
    rw [h, Finset.sum_insert h0]
  have h4 : ∑ b ∈ Finset.range 12, f b =
      f 0 + (f 1 + f 2 + f 3 + f 4 + f 5 + f 6 + f 7 + f 8 + f 9 + f 10 + f 11) := by
    simp [Finset.sum_range_succ]
    ring
  linarith [h3, h4]

theorem calculate_eq_sum (rfp sf : FeatureMap) :
    calculate_match_score rfp sf = ∑ b ∈ Finset.Icc 1 11, bucketScore rfp sf b := by
  have hr : List.range' 1 11 = [1, 2, 3, 4, 5, 6, 7, 8, 9, 10, 11] := rfl
  unfold calculate_match_score
  rw [foldl_add_map_sum, hr, sum_Icc_one_eleven]
  simp only [List.map_cons, List.map_nil, List.sum_cons, List.sum_nil]
  ring

theorem toFinset_dedup_eq (l : List String) : l.dedup.toFinset = l.toFinset := by
  ext a
  simp [List.mem_dedup]

theorem overlap_length_eq (rl sl : List String) :
    (rl.dedup.filter (fun t => decide (t ∈ sl.dedup))).length =
      (rl.toFinset ∩ sl.toFinset).card := by
  have hnd : (rl.dedup.filter (fun t => decide (t ∈ sl.dedup))).Nodup :=
    (List.nodup_dedup rl).filter _
  rw [← List.toFinset_card_of_nodup hnd, List.toFinset_filter, toFinset_dedup_eq]
  congr 1
  rw [← Finset.filter_mem_eq_inter]
  apply Finset.filter_congr
  intro x _
  simp [List.mem_dedup]

theorem bucketScore_eq_specTerm (rfp ef : FeatureMap) (b : Nat)
    (hb1 : 1 ≤ b) (hb2 : b ≤ 11) :
    bucketScore rfp ef b = specCandidateScoreTerm rfp ef b := by
  have hw : bucketWeight b = (if b ≤ 6 then (10 : ℚ) else if b ≤ 8 then 5 else 2) := by
    interval_cases b <;> rfl
  unfold bucketScore specCandidateScoreTerm
  cases hr : rfp b with
  | none => rfl
  | some rl =>
      cases hs : ef b with
      | none => rfl
      | some sl =>
          simp only
          rw [overlap_length_eq, hw, List.card_toFinset rl, List.card_toFinset sl]
          simp only [Finset.card_pos]

theorem bucketWeight_pos (b : Nat) : 0 < bucketWeight b := by
  unfold bucketWeight
  cases bucketPriority b <;> norm_num

theorem bucketScore_nonneg (rfp sf : FeatureMap) (b : Nat) :
    0 ≤ bucketScore rfp sf b := by
  unfold bucketScore
  cases rfp b with
  | none => simp
  | some rl =>
      cases sf b with
      | none => simp
      | some sl =>
          simp only
          split
          · have hw := bucketWeight_pos b
            positivity
          · exact le_refl 0

theorem bucketScore_le_weight (rfp sf : FeatureMap) (b : Nat) :
    bucketScore rfp sf b ≤ bucketWeight b := by
  unfold bucketScore
  cases rfp b with
  | none => exact le_of_lt (bucketWeight_pos b)
  | some rl =>
      cases sf b with
      | none => exact le_of_lt (bucketWeight_pos b)
      | some sl =>
          simp only
          split
          next hpos =>
            have ho : (rl.dedup.filter (fun t => decide (t ∈ sl.dedup))).length ≤
                max rl.dedup.length sl.dedup.length :=
              le_trans (List.length_filter_le _ _) (le_max_left _ _)
            have hm : (0 : ℚ) < max (rl.dedup.length : ℚ) (sl.dedup.length : ℚ) := by
              have h1 : 0 < max rl.dedup.length sl.dedup.length := lt_of_lt_of_le hpos ho
              rw [← Nat.cast_max]
              exact_mod_cast h1
            have hdiv :
                (((rl.dedup.filter (fun t => decide (t ∈ sl.dedup))).length : ℚ) /
                  max (rl.dedup.length : ℚ) (sl.dedup.length : ℚ)) ≤ 1 := by
              rw [div_le_one hm, ← Nat.cast_max]
              exact_mod_cast ho
            calc bucketWeight b *
                (((rl.dedup.filter (fun t => decide (t ∈ sl.dedup))).length : ℚ) /
                  max (rl.dedup.length : ℚ) (sl.dedup.length : ℚ)) ≤
                bucketWeight b * 1 :=
                  mul_le_mul_of_nonneg_left hdiv (le_of_lt (bucketWeight_pos b))
              _ = bucketWeight b := mul_one _
          next => exact le_of_lt (bucketWeight_pos b)

theorem weight_sum_76 : ∑ b ∈ Finset.Icc 1 11, bucketWeight b = 76 := by
  rw [sum_Icc_one_eleven]
  norm_num [bucketWeight, bucketPriority]

theorem calculate_nonneg (rfp sf : FeatureMap) :
    0 ≤ calculate_match_score rfp sf := by
  rw [calculate_eq_sum]
  exact Finset.sum_nonneg (fun b _ => bucketScore_nonneg rfp sf b)

theorem calculate_le_76 (rfp sf : FeatureMap) :
    calculate_match_score rfp sf ≤ 76 := by
  rw [calculate_eq_sum, ← weight_sum_76]
  exact Finset.sum_le_sum (fun b _ => bucketScore_le_weight rfp sf b)

theorem bucketScore_of_no_overlap (rfp sf : FeatureMap) (b : Nat)
    (h : ¬ bucketsOverlap rfp sf b) : bucketScore rfp sf b = 0 := by
  unfold bucketScore
  cases hr : rfp b with
  | none => rfl
  | some rl =>
      cases hs : sf b with
      | none => rfl
      | some sl =>
          simp only
          have hz : (rl.dedup.filter (fun t => decide (t ∈ sl.dedup))).length = 0 := by
            rw [List.length_eq_zero, List.filter_eq_nil_iff]
            intro t ht
            simp only [decide_eq_true_eq]
            intro hmem
            exact h ⟨rl, sl, hr, hs, t, List.mem_dedup.mp ht, List.mem_dedup.mp hmem⟩
          rw [hz]
          norm_num

theorem calculate_of_no_overlap (rfp sf : FeatureMap)
    (h : ∀ b, ¬ bucketsOverlap rfp sf b) : calculate_match_score rfp sf = 0 := by
  rw [calculate_eq_sum]
  exact Finset.sum_eq_zero (fun b _ => bucketScore_of_no_overlap rfp sf b (h b))

theorem mem_filter_stock {rfp : FeatureMap} {stock : List StockItem} {n : Nat}
    {s : ScoredItem} (h : s ∈ filter_stock_by_buckets rfp stock n) :
    s.item ∈ stock ∧
      s.match_score =
        calculate_match_score rfp (extract_bucket_features (stockText s.item)) ∧
      0 < s.match_score := by
  unfold filter_stock_by_buckets at h
  have h1 := List.mem_of_mem_take h
  rw [List.mem_insertionSort, List.mem_filterMap] at h1
  obtain ⟨a, ha, hfa⟩ := h1
  by_cases hpos : 0 < calculate_match_score rfp (extract_bucket_features (stockText a))
  · rw [if_pos hpos] at hfa
    injection hfa with h2
    subst h2
    exact ⟨ha, rfl, hpos⟩
  · rw [if_neg hpos] at hfa
    exact absurd hfa (by simp)

theorem filter_stock_sorted (rfp : FeatureMap) (stock : List StockItem) (n : Nat) :
    List.Sorted (fun a b : ScoredItem => b.match_score ≤ a.match_score)
      (filter_stock_by_buckets rfp stock n) := by
  unfold filter_stock_by_buckets
  haveI : IsTotal ScoredItem (fun a b => b.match_score ≤ a.match_score) :=
    ⟨fun a b => le_total b.match_score a.match_score⟩
  haveI : IsTrans ScoredItem (fun a b => b.match_score ≤ a.match_score) :=
    ⟨fun a b c hab hbc => le_trans hbc hab⟩
  exact List.Pairwise.sublist (List.take_sublist n _) (List.sorted_insertionSort _ _)

/-! ## Evaluation lemmas for the fixtures -/

theorem score_pipe_eval :
    calculate_match_score qmPipe (extract_bucket_features (stockText itPipe)) = 10 := by
  rw [calculate_eq_sum, sum_Icc_one_eleven]
  norm_num [bucketScore,
    (by decide : qmPipe 1 = none), (by decide : qmPipe 2 = some ["PIPE"]),
    (by decide : qmPipe 3 = none), (by decide : qmPipe 4 = none),
    (by decide : qmPipe 5 = none), (by decide : qmPipe 6 = none),
    (by decide : qmPipe 7 = none), (by decide : qmPipe 8 = none),
    (by decide : qmPipe 9 = none), (by decide : qmPipe 10 = none),
    (by decide : qmPipe 11 = none),
    (by decide : extract_bucket_features (stockText itPipe) 2 = some ["PIPE"]),
    (by decide : (["PIPE"] : List String).dedup = ["PIPE"]),
    (by decide : ((["PIPE"] : List String).filter
        (fun t => decide (t ∈ (["PIPE"] : List String)))).length = 1),
    bucketWeight, bucketPriority]

theorem filter_pipe_eval :
    filter_stock_by_buckets qmPipe [itPipe] 20 = [siPipe] := by
  unfold filter_stock_by_buckets
  simp only [List.filterMap_cons, List.filterMap_nil, score_pipe_eval,
    (by decide : get_matched_buckets qmPipe (extract_bucket_features (stockText itPipe)) = [mbPipe])]
  norm_num [List.insertionSort, List.orderedInsert, siPipe]

theorem bucketPatterns_nil_of_out {b : Nat} (h : ¬(1 ≤ b ∧ b ≤ 11)) :
    bucketPatterns b = [] := by
  unfold bucketPatterns
  rw [if_neg (by omega : ¬ b = 1), if_neg (by omega : ¬ b = 2),
    if_neg (by omega : ¬ b = 3), if_neg (by omega : ¬ b = 4),
    if_neg (by omega : ¬ b = 5), if_neg (by omega : ¬ b = 6),
    if_neg (by omega : ¬ b = 7), if_neg (by omega : ¬ b = 8),
    if_neg (by omega : ¬ b = 9), if_neg (by omega : ¬ b = 10),
    if_neg (by omega : ¬ b = 11)]

theorem extract_none_of_out (text : String) {b : Nat} (h : ¬(1 ≤ b ∧ b ≤ 11)) :
    extract_bucket_features text b = none := by
  unfold extract_bucket_features
  rw [bucketPatterns_nil_of_out h]
  rfl

theorem extract_blank_none (b : Nat) :
    extract_bucket_features (stockText eBlank) b = none := by
  by_cases h : 1 ≤ b ∧ b ≤ 11
  · obtain ⟨h1, h2⟩ := h
    interval_cases b <;> decide
  · exact extract_none_of_out _ h

theorem no_overlap_blank (b : Nat) :
    ¬ bucketsOverlap qmPipe (extract_bucket_features (stockText eBlank)) b := by
  rintro ⟨rl, sl, _, h2, _⟩
  rw [extract_blank_none b] at h2
  exact Option.noConfusion h2

/-! ## Claims -/

/-- C1: for every query feature map and every catalog entry, the candidate
score computed by the bucket filter (`_calculate_match_score` applied to the
query features and the features extracted from the concatenation of the
entry's product code, description, material, size and specification fields)
equals the sum, over bucket ids 1..11 present in both feature maps with
intersecting token sets, of `weight(priority) × (|intersection| /
max(|query set|, |entry set|))`, with weight 10.0 for buckets 1–6, 5.0 for
7–8 and 2.0 for 9–11; and every candidate returned by the filter carries
exactly this score for its entry. -/
theorem claim_C1 (rfp : FeatureMap) :
    (∀ it : StockItem,
      calculate_match_score rfp (extract_bucket_features (stockText it)) =
        ∑ b ∈ Finset.Icc 1 11,
          specCandidateScoreTerm rfp (extract_bucket_features (stockText it)) b) ∧
    (∀ (stock : List StockItem) (n : Nat) (s : ScoredItem),
      s ∈ filter_stock_by_buckets rfp stock n →
      s.match_score =
        ∑ b ∈ Finset.Icc 1 11,
          specCandidateScoreTerm rfp (extract_bucket_features (stockText s.item)) b) := by
  have key : ∀ it : StockItem,
      calculate_match_score rfp (extract_bucket_features (stockText it)) =
        ∑ b ∈ Finset.Icc 1 11,
          specCandidateScoreTerm rfp (extract_bucket_features (stockText it)) b := by
    intro it
    rw [calculate_eq_sum]
    refine Finset.sum_congr rfl (fun b hb => ?_)
    obtain ⟨hb1, hb2⟩ := Finset.mem_Icc.mp hb
    exact bucketScore_eq_specTerm rfp _ b hb1 hb2
  refine ⟨key, fun stock n s hs => ?_⟩
  obtain ⟨_, h2, _⟩ := mem_filter_stock hs
  rw [h2, key s.item]

/-- C1 witness: the single candidate produced for the `"PIPE"` query carries
the specified sum as its score. -/
theorem claim_C1_witness :
    siPipe.match_score =
      ∑ b ∈ Finset.Icc 1 11,
        specCandidateScoreTerm qmPipe
          (extract_bucket_features (stockText siPipe.item)) b :=
  (claim_C1 qmPipe).2 [itPipe] 20 siPipe (by rw [filter_pipe_eval]; exact List.mem_singleton.mpr rfl)

/-- C2: the filtered candidate list is sorted by score descending, has at most
`max_results` elements, contains no zero-score element, and omits every
catalog entry with zero bucket overlap with the query, regardless of
`max_results`. -/
theorem claim_C2 (rfp : FeatureMap) (stock : List StockItem) (maxResults : Nat) :
    List.Sorted (fun a b : ScoredItem => b.match_score ≤ a.match_score)
      (filter_stock_by_buckets rfp stock maxResults) ∧
    (filter_stock_by_buckets rfp stock maxResults).length ≤ maxResults ∧
    (∀ s ∈ filter_stock_by_buckets rfp stock maxResults, s.match_score ≠ 0) ∧
    (∀ e : StockItem,
      (∀ b, ¬ bucketsOverlap rfp (extract_bucket_features (stockText e)) b) →
      ∀ s ∈ filter_stock_by_buckets rfp stock maxResults, s.item ≠ e) := by
  refine ⟨filter_stock_sorted rfp stock maxResults, ?_, ?_, ?_⟩
  · unfold filter_stock_by_buckets
    exact List.length_take_le _ _
  · intro s hs
    exact ne_of_gt (mem_filter_stock hs).2.2
  · intro e he s hs hse
    obtain ⟨_, h2, h3⟩ := mem_filter_stock hs
    rw [hse, calculate_of_no_overlap _ _ he] at h2
    rw [h2] at h3
    exact lt_irrefl 0 h3

/-- C2 witness: at a concrete query and one-entry catalog, the returned
candidate has non-zero score, and an entry with no bucket overlap is not the
returned candidate's entry. -/
theorem claim_C2_witness : siPipe.match_score ≠ 0 ∧ siPipe.item ≠ eBlank :=
  ⟨(claim_C2 qmPipe [itPipe] 20).2.2.1 siPipe
      (by rw [filter_pipe_eval]; exact List.mem_singleton.mpr rfl),
   (claim_C2 qmPipe [itPipe] 20).2.2.2 eBlank no_overlap_blank siPipe
      (by rw [filter_pipe_eval]; exact List.mem_singleton.mpr rfl)⟩

/-- C10: the bucket-filter match score is bounded above by 76 for every pair
of feature maps (the weights sum to 6·10 + 2·5 + 3·2 = 76 and each overlap
quotient is at most 1), so every returned candidate's `match_score` lies in
the half-open interval (0, 76]. -/
theorem claim_C10 :
    (∀ rfp sf : FeatureMap, calculate_match_score rfp sf ≤ 76) ∧
    (∀ (rfp : FeatureMap) (stock : List StockItem) (n : Nat) (s : ScoredItem),
      s ∈ filter_stock_by_buckets rfp stock n →
      0 < s.match_score ∧ s.match_score ≤ 76) := by
  refine ⟨fun rfp sf => calculate_le_76 rfp sf, fun rfp stock n s hs => ?_⟩
  obtain ⟨_, h2, h3⟩ := mem_filter_stock hs
  refine ⟨h3, ?_⟩
  rw [h2]
  exact calculate_le_76 rfp _

/-- C10 witness: the candidate returned for the `"PIPE"` query has a score in
(0, 76]. -/
theorem claim_C10_witness : 0 < siPipe.match_score ∧ siPipe.match_score ≤ 76 :=
  claim_C10.2 qmPipe [itPipe] 20 siPipe
    (by rw [filter_pipe_eval]; exact List.mem_singleton.mpr rfl)

/-! ## Classifier helper lemma -/

theorem enhance_status_eq (ai : AIResult) (filtered : List ScoredItem)
    (fm : FeatureMap) (s : ℚ)
    (hs : pyFloat (ai.match_score.getD (.vNum 0)) = some s) :
    (enhance_ai_result ai filtered fm).status =
      determine_match_status s
        (if ai.matched_product_code.getD "" = "" then none
         else filtered.find?
           (fun it => it.item.product_code = ai.matched_product_code.getD "")) := by
  unfold enhance_ai_result
  rw [hs]

/-- C3: the classifier yields `unmatched` whenever the coerced score is below
40, and also whenever no candidate in the filtered list has a product code
exactly equal to the judgment's code, even for a high score. -/
theorem claim_C3 (ai : AIResult) (filtered : List ScoredItem) (fm : FeatureMap)
    (s : ℚ) (hs : pyFloat (ai.match_score.getD (.vNum 0)) = some s) :
    (s < 40 → (enhance_ai_result ai filtered fm).status = .unmatched) ∧
    ((∀ c ∈ filtered, c.item.product_code ≠ ai.matched_product_code.getD "") →
      (enhance_ai_result ai filtered fm).status = .unmatched) := by
  rw [enhance_status_eq ai filtered fm s hs]
  constructor
  · intro hlt
    unfold determine_match_status
    rw [if_pos hlt]
  · intro hnone
    have hm : (if ai.matched_product_code.getD "" = "" then none
        else filtered.find?
          (fun it => it.item.product_code = ai.matched_product_code.getD "")) =
        (none : Option ScoredItem) := by
      split
      · rfl
      · rw [List.find?_eq_none]
        intro c hc
        simp only [decide_eq_true_eq]
        exact hnone c hc
    rw [hm]
    unfold determine_match_status
    split
    · rfl
    · rfl

/-- C3 witness: judgment code `"X1"` with score `"85"` against a list whose
only candidate code is `"Y1"` yields `unmatched`. -/
theorem claim_C3_witness :
    (enhance_ai_result aiX1 fsY fmEmpty).status = Status.unmatched :=
  (claim_C3 aiX1 fsY fmEmpty 85 (by decide)).2 (by decide)

/-- C4 counterexample: a matched entry whose quantity is the empty string — a
non-numeric value the claim requires to be treated as available (`matched`) —
is classified `unavailable`, because `float(qty_str) if qty_str else 0` turns
a falsy string into quantity 0. -/
theorem claim_C4_counterexample :
    determine_match_status 85 (some siQEmpty) = Status.unavailable ∧
    pyFloat (siQEmpty.item.on_hand_quantity.getD (.vStr "0")) = none := by
  constructor
  · rfl
  · decide

/-- C4 amended: for score ≥ 40 and a located entry, the status is
`unavailable` iff the quantity value (defaulting to `"0"` when the key is
absent) is falsy (`None`, empty string, zero) or parses to a number ≤ 0; a
truthy value that fails to parse or parses positive yields `matched`. -/
theorem claim_C4_amended (s : ℚ) (it : ScoredItem) (hge : 40 ≤ s) :
    (determine_match_status s (some it) = .unavailable ↔
      (pyTruthy (it.item.on_hand_quantity.getD (.vStr "0")) = false ∨
       ∃ v, pyFloat (it.item.on_hand_quantity.getD (.vStr "0")) = some v ∧ v ≤ 0)) ∧
    (determine_match_status s (some it) = .matched ↔
      (pyTruthy (it.item.on_hand_quantity.getD (.vStr "0")) = true ∧
       (pyFloat (it.item.on_hand_quantity.getD (.vStr "0")) = none ∨
        ∃ v, pyFloat (it.item.on_hand_quantity.getD (.vStr "0")) = some v ∧ 0 < v))) := by
  unfold determine_match_status
  rw [if_neg (not_lt.mpr hge)]
  cases htr : pyTruthy (it.item.on_hand_quantity.getD (.vStr "0"))
  · simp [htr]
  · cases hpf : pyFloat (it.item.on_hand_quantity.getD (.vStr "0")) with
    | none => simp [htr, hpf]
    | some v =>
        by_cases hv : v ≤ 0
        · simp [htr, hpf, hv]
        · simp [htr, hpf, hv, not_le.mp hv]

/-- C4 witness: score 85 with a located entry of quantity `"5"` is `matched`. -/
theorem claim_C4_witness : determine_match_status 85 (some siQ5) = Status.matched :=
  (claim_C4_amended 85 siQ5 (by norm_num)).2.mpr
    ⟨by decide, Or.inr ⟨5, by decide, by norm_num⟩⟩

/-- C5 counterexample: a judgment whose score is the non-numeric string
`"abc"` produces an `error` result, not the `unmatched` result produced for
score 0 — `float('abc')` raises and the handler converts it. -/
theorem claim_C5_counterexample :
    (enhance_ai_result aiBad [] fmEmpty).status = Status.error ∧
    (enhance_ai_result aiZero [] fmEmpty).status = Status.unmatched := by
  constructor
  · rfl
  · rfl

/-- C5 amended: a missing score value is coerced to 0 (yielding `unmatched`),
but a score value on which `float()` fails (non-numeric string or `None`)
raises and is converted into an `error` result. -/
theorem claim_C5_amended (ai : AIResult) (filtered : List ScoredItem)
    (fm : FeatureMap) :
    (ai.match_score = none → (enhance_ai_result ai filtered fm).status = .unmatched) ∧
    (pyFloat (ai.match_score.getD (.vNum 0)) = none →
      (enhance_ai_result ai filtered fm).status = .error) := by
  constructor
  · intro h
    have hs : pyFloat (ai.match_score.getD (.vNum 0)) = some 0 := by rw [h]; rfl
    rw [enhance_status_eq ai filtered fm 0 hs]
    unfold determine_match_status
    rw [if_pos (by norm_num : (0 : ℚ) < 40)]
  · intro h
    unfold enhance_ai_result
    rw [h]

/-- C5 witness: a judgment without a score key is `unmatched`; one with score
`"abc"` is an `error`. -/
theorem claim_C5_witness :
    (enhance_ai_result aiNoScore [] fmEmpty).status = Status.unmatched ∧
    (enhance_ai_result aiBad [] fmEmpty).status = Status.error :=
  ⟨(claim_C5_amended aiNoScore [] fmEmpty).1 rfl,
   (claim_C5_amended aiBad [] fmEmpty).2 (by decide)⟩

/-- C9 counterexample: with candidates A,B,C,D,E and matched code A (so four
candidates with differing codes exist), only the two alternatives B and C are
returned — the list is sliced to the first three candidates before the
matched code is excluded, not after. -/
theorem claim_C9_counterexample :
    ((enhance_ai_result aiA fs5 fmEmpty).alternative_matches.getD []).map
      (fun a => a.product_code) = ["B", "C"] := by
  decide

/-- C9 amended: the alternatives are the candidates among the first three of
the filtered list whose product code differs from the judgment's code, in
their existing rank order, each exposing code, description and bucket score;
hence at most 3, and fewer when the matched code sits in the top three. -/
theorem claim_C9_amended (ai : AIResult) (filtered : List ScoredItem)
    (fm : FeatureMap) (s : ℚ)
    (hs : pyFloat (ai.match_score.getD (.vNum 0)) = some s) :
    (enhance_ai_result ai filtered fm).alternative_matches =
      some (((filtered.take 3).filter
          (fun c => c.item.product_code ≠ ai.matched_product_code.getD "")).map
        (fun c => ⟨c.item.product_code, c.item.description, c.match_score⟩)) ∧
    (∀ alts, (enhance_ai_result ai filtered fm).alternative_matches = some alts →
      alts.length ≤ 3 ∧
      ∀ a ∈ alts, a.product_code ≠ ai.matched_product_code.getD "") := by
  have h1 : (enhance_ai_result ai filtered fm).alternative_matches =
      some (((filtered.take 3).filter
          (fun c => c.item.product_code ≠ ai.matched_product_code.getD "")).map
        (fun c => ⟨c.item.product_code, c.item.description, c.match_score⟩)) := by
    unfold enhance_ai_result
    rw [hs]
  refine ⟨h1, fun alts halts => ?_⟩
  rw [h1] at halts
  injection halts with h2
  subst h2
  constructor
  · calc (((filtered.take 3).filter
        (fun c => c.item.product_code ≠ ai.matched_product_code.getD "")).map
          (fun c : ScoredItem =>
            (⟨c.item.product_code, c.item.description, c.match_score⟩ : AltMatch))).length =
        ((filtered.take 3).filter
          (fun c => c.item.product_code ≠ ai.matched_product_code.getD "")).length :=
          List.length_map _ _
      _ ≤ (filtered.take 3).length := List.length_filter_le _ _
      _ ≤ 3 := List.length_take_le _ _
  · intro a ha
    rw [List.mem_map] at ha
    obtain ⟨c, hc, hac⟩ := ha
    rw [List.mem_filter] at hc
    have := hc.2
    simp only [decide_eq_true_eq] at this
    rw [← hac]
    exact this

/-- C9 witness: with matched code A among the top three of five candidates,
the alternatives respect the bound of three and exclude the matched code. -/
theorem claim_C9_witness :
    ((enhance_ai_result aiA fs5 fmEmpty).alternative_matches.getD []).length ≤ 3 := by
  have h := claim_C9_amended aiA fs5 fmEmpty 85 (by decide)
  rw [h.1, Option.getD_some]
  exact (h.2 _ h.1).1

/-- C6: batch processing returns exactly one result per input item, in input
order, with 1-based line number and original text attached; an item whose
processing raises is converted into an `error` result carrying the message,
and a successful item's result is passed through with the numbering added. -/
theorem claim_C6 (proc : String → Except String MatchResult) (items : List String) :
    (process_rfp_items proc items).length = items.length ∧
    ∀ i, i < items.length →
      ((process_rfp_items proc items).getD i (errorItemResult 0 "" "")).line_number =
        some (i + 1) ∧
      ((process_rfp_items proc items).getD i (errorItemResult 0 "" "")).original_rfp_item =
        some (items.getD i "") ∧
      (∀ r, proc (items.getD i "") = .ok r →
        (process_rfp_items proc items).getD i (errorItemResult 0 "" "") =
          { r with line_number := some (i + 1),
                   original_rfp_item := some (items.getD i "") }) ∧
      (∀ e, proc (items.getD i "") = .error e →
        ((process_rfp_items proc items).getD i (errorItemResult 0 "" "")).status = .error ∧
        ((process_rfp_items proc items).getD i (errorItemResult 0 "" "")).error_message =
          some e) := by
  have hlen : (process_rfp_items proc items).length = items.length := by
    unfold process_rfp_items
    rw [List.length_map, List.enum_length]
  refine ⟨hlen, fun i hi => ?_⟩
  have hi2 : i < (process_rfp_items proc items).length := by rw [hlen]; exact hi
  have hget : (process_rfp_items proc items).getD i (errorItemResult 0 "" "") =
      (match proc (items.getD i "") with
       | .ok r => { r with line_number := some (i + 1), original_rfp_item := some (items.getD i "") }
       | .error e => errorItemResult (i + 1) (items.getD i "") e) := by
    rw [List.getD_eq_getElem _ _ hi2, List.getD_eq_getElem items "" hi]
    simp only [process_rfp_items, List.getElem_map, List.getElem_enum]
  rw [hget]
  cases hp : proc (items.getD i "") with
  | ok r =>
      refine ⟨rfl, rfl, ?_, ?_⟩
      · intro r0 h0
        injection h0 with h1
        rw [h1]
      · intro e h0
        exact Except.noConfusion h0
  | error e =>
      refine ⟨rfl, rfl, ?_, ?_⟩
      · intro r0 h0
        exact Except.noConfusion h0
      · intro e0 h0
        injection h0 with h1
        subst h1
        exact ⟨rfl, rfl⟩

/-- C6 witness: a batch whose processor always throws still yields a result
for item 2 of 2, numbered 2, with error status. -/
theorem claim_C6_witness :
    ((process_rfp_items (fun s => Except.error ("boom:" ++ s)) ["a", "b"]).getD 1
      (errorItemResult 0 "" "")).line_number = some 2 ∧
    ((process_rfp_items (fun s => Except.error ("boom:" ++ s)) ["a", "b"]).getD 1
      (errorItemResult 0 "" "")).status = Status.error := by
  have h := (claim_C6 (fun s => Except.error ("boom:" ++ s)) ["a", "b"]).2 1 (by norm_num)
  exact ⟨h.1, (h.2.2.2 "boom:b" rfl).1⟩

theorem statusCount_partition (bom : List MatchResult) :
    statusCount .matched bom + statusCount .unmatched bom +
      statusCount .unavailable bom + statusCount .error bom = bom.length := by
  induction bom with
  | nil => rfl
  | cons r l ih =>
      cases hr : r.status <;>
        simp [statusCount, List.filter_cons, hr] at ih ⊢ <;> omega

/-- C8 counterexample: on the example query the quoted-inch size pattern does
not match — after the closing quote the pattern requires a word boundary, but
a space follows — so bucket 9 is absent, contradicting the claimed
`bucket 9 → ⟨6⟩` entry. -/
theorem claim_C8_counterexample : extract_bucket_features qC8 9 = none := by decide

/-- C8 amended: the example query extracts bucket 2 → PIPE, 4 → SMLS,
7 → X52, 8 → SCH40 and 11 → API, PSL2, and no other bucket — in particular
not bucket 9, since `6"` is followed by a space and the pattern's trailing
word boundary fails. -/
theorem claim_C8_amended :
    (extract_bucket_features qC8 2).map List.toFinset = some {"PIPE"} ∧
    (extract_bucket_features qC8 4).map List.toFinset = some {"SMLS"} ∧
    (extract_bucket_features qC8 7).map List.toFinset = some {"X52"} ∧
    (extract_bucket_features qC8 8).map List.toFinset = some {"SCH40"} ∧
    (extract_bucket_features qC8 11).map List.toFinset = some {"API", "PSL2"} ∧
    extract_bucket_features qC8 1 = none ∧
    extract_bucket_features qC8 3 = none ∧
    extract_bucket_features qC8 5 = none ∧
    extract_bucket_features qC8 6 = none ∧
    extract_bucket_features qC8 9 = none ∧
    extract_bucket_features qC8 10 = none := by
  refine ⟨?_, ?_, ?_, ?_, ?_, ?_, ?_, ?_, ?_, ?_, ?_⟩ <;> decide

/-- C7 counterexample: on an empty result collection the summary's
`Total Items` row still reads `100.0%`, so not every percentage reported in
the summary is `0.0%` when the total is 0. -/
theorem claim_C7_counterexample :
    (generate_bom_summary []).map (fun r => r.percentage) =
      ["100.0%", "0.0%", "0.0%", "0.0%", "0.0%", "0.0%", "0.0%", "0.0%"] := by
  rfl

/-- C7 amended: every per-status and per-confidence percentage is `0.0%` when
the total is 0 (the `Total Items` row always reads `100.0%`); when the total
is positive, the four per-status percentages are the one-decimal renderings of
the exact percentages, which sum to exactly 100, their rounded tenths summing
to 1000 up to a total rounding error of at most 2 tenths; and every rendered
percentage has exactly one decimal digit. -/
theorem claim_C7_amended (bom : List MatchResult) :
    (bom.length = 0 →
      (generate_bom_summary bom).map (fun r => r.percentage) =
        ["100.0%", "0.0%", "0.0%", "0.0%", "0.0%", "0.0%", "0.0%", "0.0%"]) ∧
    (0 < bom.length →
      ((statusCount .matched bom : ℚ) / (bom.length : ℚ) * 100 +
        (statusCount .unmatched bom : ℚ) / (bom.length : ℚ) * 100 +
        (statusCount .unavailable bom : ℚ) / (bom.length : ℚ) * 100 +
        (statusCount .error bom : ℚ) / (bom.length : ℚ) * 100 = 100) ∧
      |((round ((statusCount .matched bom : ℚ) / (bom.length : ℚ) * 100 * 10) +
          round ((statusCount .unmatched bom : ℚ) / (bom.length : ℚ) * 100 * 10) +
          round ((statusCount .unavailable bom : ℚ) / (bom.length : ℚ) * 100 * 10) +
          round ((statusCount .error bom : ℚ) / (bom.length : ℚ) * 100 * 10) : ℤ) : ℚ) -
        1000| ≤ 2 ∧
      ((generate_bom_summary bom).map (fun r => r.percentage)).take 5 =
        ["100.0%",
         pctString ((statusCount .matched bom : ℚ) / (bom.length : ℚ) * 100),
         pctString ((statusCount .unmatched bom : ℚ) / (bom.length : ℚ) * 100),
         pctString ((statusCount .unavailable bom : ℚ) / (bom.length : ℚ) * 100),
         pctString ((statusCount .error bom : ℚ) / (bom.length : ℚ) * 100)]) ∧
    (∀ q : ℚ, ∃ k d : Nat, d < 10 ∧
      pctString q = toString k ++ "." ++ toString d ++ "%") := by
  refine ⟨?_, ?_, ?_⟩
  · intro h
    have hb : bom = [] := List.length_eq_zero.mp h
    subst hb
    rfl
  · intro hpos
    have hp := statusCount_partition bom
    have hlen : ((bom.length : ℚ)) ≠ 0 := by
      exact_mod_cast Nat.pos_iff_ne_zero.mp hpos
    have hq : (statusCount .matched bom : ℚ) + (statusCount .unmatched bom : ℚ) +
        (statusCount .unavailable bom : ℚ) + (statusCount .error bom : ℚ) =
        (bom.length : ℚ) := by
      exact_mod_cast hp
    have hsum : (statusCount .matched bom : ℚ) / (bom.length : ℚ) * 100 +
        (statusCount .unmatched bom : ℚ) / (bom.length : ℚ) * 100 +
        (statusCount .unavailable bom : ℚ) / (bom.length : ℚ) * 100 +
        (statusCount .error bom : ℚ) / (bom.length : ℚ) * 100 = 100 := by
      field_simp
      linarith [hq]
    refine ⟨hsum, ?_, ?_⟩
    · have h1 := abs_sub_round ((statusCount .matched bom : ℚ) / (bom.length : ℚ) * 100 * 10)
      have h2 := abs_sub_round ((statusCount .unmatched bom : ℚ) / (bom.length : ℚ) * 100 * 10)
      have h3 := abs_sub_round ((statusCount .unavailable bom : ℚ) / (bom.length : ℚ) * 100 * 10)
      have h4 := abs_sub_round ((statusCount .error bom : ℚ) / (bom.length : ℚ) * 100 * 10)
      rw [abs_le] at h1 h2 h3 h4 ⊢
      push_cast
      constructor <;> nlinarith [hsum]
    · simp [generate_bom_summary, hpos]
  · intro q
    refine ⟨(round (q * 10)).toNat / 10, (round (q * 10)).toNat % 10,
      Nat.mod_lt _ (by norm_num), rfl⟩

theorem pct_eval_half : pctString (((1 : Nat) : ℚ) / ((2 : Nat) : ℚ) * 100) = "50.0%" := by
  unfold pctString
  have h : (((1 : Nat) : ℚ) / ((2 : Nat) : ℚ) * 100) * 10 = 500 := by
    push_cast
    norm_num
  rw [h]
  have h2 : round (500 : ℚ) = 500 := by
    rw [round_eq]
    norm_num
  rw [h2]
  rfl

theorem pct_eval_zero : pctString (((0 : Nat) : ℚ) / ((2 : Nat) : ℚ) * 100) = "0.0%" := by
  unfold pctString
  have h : (((0 : Nat) : ℚ) / ((2 : Nat) : ℚ) * 100) * 10 = 0 := by
    push_cast
    norm_num
  rw [h]
  have h2 : round (0 : ℚ) = 0 := by
    rw [round_eq]
    norm_num
  rw [h2]
  rfl

/-- C7 witness: for one matched and one error result, the summary rows render
100.0%, 50.0%, 0.0%, 0.0%, 50.0% — the status percentages sum to 100. -/
theorem claim_C7_witness :
    ((generate_bom_summary bomW).map (fun r => r.percentage)).take 5 =
      ["100.0%", "50.0%", "0.0%", "0.0%", "50.0%"] := by
  have h := ((claim_C7_amended bomW).2.1 (by decide)).2.2
  rw [h, (by decide : statusCount Status.matched bomW = 1),
    (by decide : statusCount Status.unmatched bomW = 0),
    (by decide : statusCount Status.unavailable bomW = 0),
    (by decide : statusCount Status.error bomW = 1),
    (by decide : bomW.length = 2), pct_eval_half, pct_eval_zero]

end RFP
